import Mathlib

/-!
Verification of the pic-js client library: a shallow embedding of the
protocol codec (`packages/pic/src/pocket-ic-client-types.ts`, provided as
`src/unnamed/part_000`) and of the process supervisor
(`packages/pic/src/pocket-ic-server.ts`), together with theorems checking
the natural-language specification against these definitions.

TypeScript values are embedded as follows: optional fields become `Option`,
JS arrays become `List`, closed string unions driven through a `switch` with
a defensive `default: throw` arm become `String` inputs with an `Except`
result, and thrown exceptions become `Except.error`.
-/

/-! ## Identifier codec

The util module (`base64Encode`, `base64Decode`, `base64EncodePrincipal`,
`base64DecodePrincipal`) is not part of the provided sources.  Per the spec
(§4.1) it is a canonical textual encoding of binary identifiers with a
strict round trip: `decodeId(encodeId(x)) == x`, and decoding rejects
malformed text.  We therefore model wire text as the canonical image of the
encoder: a `B64Text` value stands for the base64 text encoding the byte
sequence it wraps.
-/

/-- A principal identity: an opaque byte sequence (`@dfinity/principal`). -/
abbrev Principal := List Nat

/-- Modelled from the spec: base64 text produced by the identifier codec of
the util module (not under the provided sources); it is identified with the
byte sequence it canonically encodes. -/
structure B64Text where
  bytes : List Nat
deriving DecidableEq, Repr

/-- Modelled from the spec: `base64EncodePrincipal` from the util module. -/
def base64EncodePrincipal (p : Principal) : B64Text := ⟨p⟩

/-- Modelled from the spec: `base64DecodePrincipal` from the util module;
exact inverse of `base64EncodePrincipal`. -/
def base64DecodePrincipal (s : B64Text) : Principal := s.bytes

/-- Modelled from the spec: `base64Encode` from the util module. -/
def base64Encode (b : List Nat) : B64Text := ⟨b⟩

/-- Modelled from the spec: `base64Decode` from the util module; exact
inverse of `base64Encode`. -/
def base64Decode (s : B64Text) : List Nat := s.bytes

/-! ## CreateInstance (part_000 lines 13-205) -/

/-- Embeds `SubnetStateType` / the `NewSubnetStateConfig | FromPathSubnetStateConfig`
union: the per-subnet state variant. `new` carries nothing; `fromPath`
carries a filesystem path and a target subnet id. -/
inductive SubnetStateConfig
  | new
  | fromPath (path : String) (subnetId : Principal)
deriving DecidableEq, Repr

/-- Embeds `SubnetConfig<T>` (part_000 lines 28-36). -/
structure SubnetConfig where
  enableDeterministicTimeSlicing : Option Bool
  enableBenchmarkingInstructionLimits : Option Bool
  state : SubnetStateConfig
deriving DecidableEq, Repr

/-- Embeds `CreateInstanceRequest` (part_000 lines 15-26). -/
structure CreateInstanceRequest where
  nns : Option SubnetConfig
  sns : Option SubnetConfig
  ii : Option SubnetConfig
  fiduciary : Option SubnetConfig
  bitcoin : Option SubnetConfig
  system : Option (List SubnetConfig)
  application : Option (List SubnetConfig)
  verifiedApplication : Option (List SubnetConfig)
  processingTimeoutMs : Option Nat
  nonmainnetFeatures : Option Bool
deriving DecidableEq, Repr

/-- The wire `dts_flag` union `'Enabled' | 'Disabled'`. -/
inductive DtsFlag
  | Enabled
  | Disabled
deriving DecidableEq, Repr

/-- The wire `instruction_config` union `'Production' | 'Benchmarking'`. -/
inductive InstructionConfig
  | Production
  | Benchmarking
deriving DecidableEq, Repr

/-- The wire `state_config` union `'New' | {FromPath: [string, {subnet_id}]}`. -/
inductive StateConfig
  | New
  | FromPath (path : String) (subnet_id : B64Text)
deriving DecidableEq, Repr

/-- Embeds `EncodedSubnetConfig` (part_000 lines 97-101). -/
structure EncodedSubnetConfig where
  dts_flag : DtsFlag
  instruction_config : InstructionConfig
  state_config : StateConfig
deriving DecidableEq, Repr

/-- Embeds `EncodedCreateInstanceSubnetConfig` (part_000 lines 86-95). -/
structure EncodedCreateInstanceSubnetConfig where
  nns : Option EncodedSubnetConfig
  sns : Option EncodedSubnetConfig
  ii : Option EncodedSubnetConfig
  fiduciary : Option EncodedSubnetConfig
  bitcoin : Option EncodedSubnetConfig
  system : List EncodedSubnetConfig
  application : List EncodedSubnetConfig
  verified_application : List EncodedSubnetConfig
deriving DecidableEq, Repr

/-- Embeds `EncodedCreateInstanceRequest` (part_000 lines 81-84). -/
structure EncodedCreateInstanceRequest where
  subnet_config_set : EncodedCreateInstanceSubnetConfig
  nonmainnet_features : Bool
deriving DecidableEq, Repr

/-- Embeds `TopologyValidationError` from the error module. -/
inductive TopologyValidationError
  | mk
deriving DecidableEq, Repr

/-- Embeds `encodeDtsFlag` (part_000 lines 148-152): `=== false` maps to
`Disabled`, anything else (true or absent) to `Enabled`. -/
def encodeDtsFlag (enableDeterministicTimeSlicing : Option Bool) : DtsFlag :=
  if enableDeterministicTimeSlicing = some false then DtsFlag.Disabled
  else DtsFlag.Enabled

/-- Embeds `encodeInstructionConfig` (part_000 lines 154-160): `=== true` maps to
`Benchmarking`, anything else (false or absent) to `Production`. -/
def encodeInstructionConfig (enableBenchmarkingInstructionLimits : Option Bool) :
    InstructionConfig :=
  if enableBenchmarkingInstructionLimits = some true then InstructionConfig.Benchmarking
  else InstructionConfig.Production

/-- Embeds `encodeSubnetConfig` (part_000 lines 109-146): `undefined` input passes
through; otherwise the state variant is matched (the TS `default: throw`
arm is unreachable for the closed two-variant state type). -/
def encodeSubnetConfig (config : Option SubnetConfig) : Option EncodedSubnetConfig :=
  match config with
  | none => none
  | some config =>
    match config.state with
    | SubnetStateConfig.new =>
      some { dts_flag := encodeDtsFlag config.enableDeterministicTimeSlicing,
             instruction_config :=
               encodeInstructionConfig config.enableBenchmarkingInstructionLimits,
             state_config := StateConfig.New }
    | SubnetStateConfig.fromPath path subnetId =>
      some { dts_flag := encodeDtsFlag config.enableDeterministicTimeSlicing,
             instruction_config :=
               encodeInstructionConfig config.enableBenchmarkingInstructionLimits,
             state_config := StateConfig.FromPath path (base64EncodePrincipal subnetId) }

/-- Embeds `encodeManySubnetConfigs` (part_000 lines 103-107): the `configs: T[] = []`
defaulted parameter is modelled as an `Option` list defaulted to `[]`; each
element is encoded and nil results are filtered out. -/
def encodeManySubnetConfigs (configs : Option (List SubnetConfig)) :
    List EncodedSubnetConfig :=
  (((configs.getD []).map (fun c => encodeSubnetConfig (some c))).filterMap id)

/-- The `defaultApplicationSubnet` constant of `encodeCreateInstanceRequest`
(part_000 lines 165-167). -/
def defaultApplicationSubnet : SubnetConfig :=
  { enableDeterministicTimeSlicing := none,
    enableBenchmarkingInstructionLimits := none,
    state := SubnetStateConfig.new }

/-- Embeds `encodeCreateInstanceRequest` (part_000 lines 162-205): an absent request
defaults to one fresh Application subnet; an absent `application` list also
defaults to one fresh Application subnet; the topology validation gate
rejects an encoding with no singular subnet, no system subnet and no
application subnet (or a negative computed list length, impossible here as
in the source). -/
def encodeCreateInstanceRequest (req : Option CreateInstanceRequest) :
    Except TopologyValidationError EncodedCreateInstanceRequest :=
  let defaultOptions : CreateInstanceRequest := req.getD
    { nns := none, sns := none, ii := none, fiduciary := none, bitcoin := none,
      system := none, application := some [defaultApplicationSubnet],
      verifiedApplication := none, processingTimeoutMs := none,
      nonmainnetFeatures := none }
  let options : EncodedCreateInstanceRequest :=
    { subnet_config_set :=
        { nns := encodeSubnetConfig defaultOptions.nns,
          sns := encodeSubnetConfig defaultOptions.sns,
          ii := encodeSubnetConfig defaultOptions.ii,
          fiduciary := encodeSubnetConfig defaultOptions.fiduciary,
          bitcoin := encodeSubnetConfig defaultOptions.bitcoin,
          system := encodeManySubnetConfigs defaultOptions.system,
          application := encodeManySubnetConfigs
            (some (defaultOptions.application.getD [defaultApplicationSubnet])),
          verified_application := encodeManySubnetConfigs
            defaultOptions.verifiedApplication },
      nonmainnet_features := defaultOptions.nonmainnetFeatures.getD false }
  if (options.subnet_config_set.nns.isNone
      && options.subnet_config_set.sns.isNone
      && options.subnet_config_set.ii.isNone
      && options.subnet_config_set.fiduciary.isNone
      && options.subnet_config_set.bitcoin.isNone
      && (options.subnet_config_set.system.length == 0)
      && (options.subnet_config_set.application.length == 0))
     || decide (options.subnet_config_set.system.length < 0)
     || decide (options.subnet_config_set.application.length < 0)
  then Except.error TopologyValidationError.mk
  else Except.ok options

/-! ## GetTopology (part_000 lines 229-339) -/

/-- Embeds `SubnetType` (part_000 lines 243-251). -/
inductive SubnetType
  | Application
  | Bitcoin
  | Fiduciary
  | InternetIdentity
  | NNS
  | SNS
  | System
deriving DecidableEq, Repr

/-- The seven known wire subnet-kind tokens of `EncodedSubnetKind`
(part_000 lines 268-275). -/
def knownSubnetKinds : List String :=
  ["Application", "Bitcoin", "Fiduciary", "II", "NNS", "SNS", "System"]

/-- Embeds `decodeSubnetKind` (part_000 lines 303-322): at runtime the wire value
is a raw string, and the `default: throw` arm decides every token outside
the seven known ones, so the embedding takes a `String`. -/
def decodeSubnetKind (kind : String) : Except String SubnetType :=
  if kind = "Application" then Except.ok SubnetType.Application
  else if kind = "Bitcoin" then Except.ok SubnetType.Bitcoin
  else if kind = "Fiduciary" then Except.ok SubnetType.Fiduciary
  else if kind = "II" then Except.ok SubnetType.InternetIdentity
  else if kind = "NNS" then Except.ok SubnetType.NNS
  else if kind = "SNS" then Except.ok SubnetType.SNS
  else if kind = "System" then Except.ok SubnetType.System
  else Except.error ("Unknown subnet kind: " ++ kind)

/-! ## GetTime / SetTime (part_000 lines 341-379)

JS `number` time values are modelled as exact rationals: on the timestamps
the spec quantifies over (those exactly representable in nanoseconds),
IEEE-754 multiplication and division by 1,000,000 coincide with exact
rational arithmetic. -/

/-- Embeds `GetTimeResponse` (part_000 lines 343-345). -/
structure GetTimeResponse where
  millisSinceEpoch : ℚ
deriving DecidableEq, Repr

/-- Embeds `EncodedGetTimeResponse` (part_000 lines 347-349). -/
structure EncodedGetTimeResponse where
  nanos_since_epoch : ℚ
deriving DecidableEq, Repr

/-- Embeds `decodeGetTimeResponse` (part_000 lines 351-357). -/
def decodeGetTimeResponse (res : EncodedGetTimeResponse) : GetTimeResponse :=
  { millisSinceEpoch := res.nanos_since_epoch / 1000000 }

/-- Embeds `SetTimeRequest` (part_000 lines 363-365). -/
structure SetTimeRequest where
  millisSinceEpoch : ℚ
deriving DecidableEq, Repr

/-- Embeds `EncodedSetTimeRequest` (part_000 lines 367-369). -/
structure EncodedSetTimeRequest where
  nanos_since_epoch : ℚ
deriving DecidableEq, Repr

/-- Embeds `encodeSetTimeRequest` (part_000 lines 371-377). -/
def encodeSetTimeRequest (req : SetTimeRequest) : EncodedSetTimeRequest :=
  { nanos_since_epoch := req.millisSinceEpoch * 1000000 }

/-! ## GetCanisterSubnetId (part_000 lines 381-423) -/

/-- Embeds `GetSubnetIdResponse` (part_000 lines 399-401). -/
structure GetSubnetIdResponse where
  subnetId : Option Principal
deriving DecidableEq, Repr

/-- The runtime shapes of `EncodedGetSubnetIdResponse` (part_000 lines
403-407) as handled by the decoder: a nil (null/undefined) response, an
object without the `subnet_id` key, or an object carrying `subnet_id`. -/
inductive EncodedGetSubnetIdResponse
  | nil
  | emptyObject
  | withSubnetId (subnet_id : B64Text)
deriving DecidableEq, Repr

/-- Embeds `decodeGetSubnetIdResponse` (part_000 lines 409-421): total, returns
`subnetId := none` for the nil and keyless shapes. -/
def decodeGetSubnetIdResponse (res : EncodedGetSubnetIdResponse) :
    GetSubnetIdResponse :=
  match res with
  | EncodedGetSubnetIdResponse.nil => { subnetId := none }
  | EncodedGetSubnetIdResponse.emptyObject => { subnetId := none }
  | EncodedGetSubnetIdResponse.withSubnetId s =>
    { subnetId := some (base64DecodePrincipal s) }

/-! ## HTTPS outcalls (part_000 lines 589-781) -/

/-- Embeds `CanisterHttpMethod` (part_000 lines 601-605). -/
inductive CanisterHttpMethod
  | GET
  | POST
  | HEAD
deriving DecidableEq, Repr

/-- Embeds `CanisterHttpHeader` (part_000 line 607): a name/value pair. -/
abbrev CanisterHttpHeader := String × String

/-- Embeds `EncodedCanisterHttpHeader` (part_000 lines 627-630). -/
structure EncodedCanisterHttpHeader where
  name : String
  value : String
deriving DecidableEq, Repr

/-- The three known wire HTTP-method tokens of `EncodedCanisterHttpMethod`
(part_000 lines 621-625). -/
def knownHttpMethods : List String := ["GET", "POST", "HEAD"]

/-- Embeds `decodeCanisterHttpMethod` (part_000 lines 652-665): runtime wire values
are raw strings and the `default: throw` arm decides all unknown tokens, so
the embedding takes a `String`. -/
def decodeCanisterHttpMethod (method : String) : Except String CanisterHttpMethod :=
  if method = "GET" then Except.ok CanisterHttpMethod.GET
  else if method = "POST" then Except.ok CanisterHttpMethod.POST
  else if method = "HEAD" then Except.ok CanisterHttpMethod.HEAD
  else Except.error ("Unknown canister HTTP method: " ++ method)

/-- The runtime shape of `HttpsOutcallResponseMock` (part_000 lines 684-699):
a JS object is a property bag discriminated by its `type` string; the
success fields (`headers`, `body`) and reject field (`message`) are carried
alongside the shared `statusCode`. -/
structure HttpsOutcallResponseMock where
  type : String
  statusCode : Nat
  headers : List CanisterHttpHeader
  body : List Nat
  message : String
deriving DecidableEq, Repr

/-- Embeds `EncodedHttpsOutcallResponseMock` (part_000 lines 710-727): the
`CanisterHttpReply` / `CanisterHttpReject` wrappers. -/
inductive EncodedHttpsOutcallResponseMock
  | CanisterHttpReply (status : Nat) (headers : List EncodedCanisterHttpHeader)
      (body : B64Text)
  | CanisterHttpReject (reject_code : Nat) (message : String)
deriving DecidableEq, Repr

/-- Embeds `encodeHttpHeader` (part_000 lines 772-779). -/
def encodeHttpHeader (header : CanisterHttpHeader) : EncodedCanisterHttpHeader :=
  { name := header.1, value := header.2 }

/-- Embeds `encodeHttpsOutcallResponse` (part_000 lines 744-770): switches on the
`type` tag; unknown tags hit the `default: throw` arm (the source message
interpolates the whole object; the embedding keeps the fixed text). -/
def encodeHttpsOutcallResponse (res : HttpsOutcallResponseMock) :
    Except String EncodedHttpsOutcallResponseMock :=
  if res.type = "success" then
    Except.ok (EncodedHttpsOutcallResponseMock.CanisterHttpReply
      res.statusCode (res.headers.map encodeHttpHeader) (base64Encode res.body))
  else if res.type = "reject" then
    Except.ok (EncodedHttpsOutcallResponseMock.CanisterHttpReject
      res.statusCode res.message)
  else Except.error "Unknown response type"

/-! ## CanisterCall (part_000 lines 783-908) -/

/-- Embeds `EffectivePrincipal` (part_000 lines 793-799): routing by subnet
identity or by canister identity. -/
inductive EffectivePrincipal
  | subnetId (p : Principal)
  | canisterId (p : Principal)
deriving DecidableEq, Repr

/-- Embeds `EncodedEffectivePrincipal` (part_000 lines 809-816): the tagged
`SubnetId` / `CanisterId` wrappers or the string sentinel `'None'`. -/
inductive EncodedEffectivePrincipal
  | SubnetId (s : B64Text)
  | CanisterId (s : B64Text)
  | None
deriving DecidableEq, Repr

/-- Embeds `encodeEffectivePrincipal` (part_000 lines 818-834): nil maps to the
`'None'` sentinel, otherwise the present variant is tagged. -/
def encodeEffectivePrincipal (effectivePrincipal : Option EffectivePrincipal) :
    EncodedEffectivePrincipal :=
  match effectivePrincipal with
  | none => EncodedEffectivePrincipal.None
  | some (EffectivePrincipal.subnetId p) =>
    EncodedEffectivePrincipal.SubnetId (base64EncodePrincipal p)
  | some (EffectivePrincipal.canisterId p) =>
    EncodedEffectivePrincipal.CanisterId (base64EncodePrincipal p)

/-- Embeds `decodeEffectivePrincipal` (part_000 lines 836-850): the `'None'`
sentinel maps back to null, the tagged wrappers to their variants. -/
def decodeEffectivePrincipal (effectivePrincipal : EncodedEffectivePrincipal) :
    Option EffectivePrincipal :=
  match effectivePrincipal with
  | EncodedEffectivePrincipal.None => none
  | EncodedEffectivePrincipal.SubnetId s =>
    some (EffectivePrincipal.subnetId (base64DecodePrincipal s))
  | EncodedEffectivePrincipal.CanisterId s =>
    some (EffectivePrincipal.canisterId (base64DecodePrincipal s))

/-- Embeds `CanisterCallResponse` (part_000 lines 864-866). -/
structure CanisterCallResponse where
  body : List Nat
deriving DecidableEq, Repr

/-- Embeds `EncodedCanisterCallResponse` (part_000 lines 868-892): the closed union
of `{Err:{code,description}}`, `{Ok:{Reject}}` and `{Ok:{Reply}}`. -/
inductive EncodedCanisterCallResponse
  | Err (code : String) (description : String)
  | OkReject (message : String)
  | OkReply (reply : B64Text)
deriving DecidableEq, Repr

/-- Embeds `decodeCanisterCallResponse` (part_000 lines 894-908): an `Err` payload
throws its description, an embedded `Reject` throws its message, otherwise
the base64 `Reply` payload is decoded and returned. -/
def decodeCanisterCallResponse (res : EncodedCanisterCallResponse) :
    Except String CanisterCallResponse :=
  match res with
  | EncodedCanisterCallResponse.Err _ description => Except.error description
  | EncodedCanisterCallResponse.OkReject message => Except.error message
  | EncodedCanisterCallResponse.OkReply reply =>
    Except.ok { body := base64Decode reply }

/-! ## Process supervisor (pocket-ic-server.ts)

The util module's `poll` helper is not part of the provided sources; it is
modelled from the spec (§4.5, §9): a bounded retry loop at a fixed interval
with a fixed overall timeout, each attempt performing a best-effort read
and parse, a failed attempt retried until the timeout and then turned into
a terminal timeout failure.  The environment is the content of the
readiness file at each attempt, a function from attempt index to text. -/

/-- Embeds `POLL_INTERVAL_MS` (pocket-ic-server.ts line 152). -/
def POLL_INTERVAL_MS : Nat := 20

/-- Embeds `POLL_TIMEOUT_MS` (pocket-ic-server.ts line 153). -/
def POLL_TIMEOUT_MS : Nat := 30000

/-- The number of poll attempts that fit in the overall timeout at the
fixed interval. -/
def MAX_POLL_ATTEMPTS : Nat := POLL_TIMEOUT_MS / POLL_INTERVAL_MS

/-- Embeds `BinTimeoutError` from the error module: the readiness timeout. -/
inductive BinTimeoutError
  | mk
deriving DecidableEq, Repr

/-- Parses the leading digits of a character list; `none` when no digit is
found (JS `NaN`). -/
def parseLeadingDigits (cs : List Char) : Option Nat :=
  let digs := cs.takeWhile Char.isDigit
  if digs.isEmpty then none
  else some (digs.foldl (fun a c => a * 10 + (c.toNat - 48)) 0)

/-- Modelled from the spec: JS `parseInt(s)` (radix 10) as used at
pocket-ic-server.ts line 98 — leading whitespace skipped, optional sign,
leading decimal digits, `NaN` (here `none`) when no digit is present. -/
def parseIntJs (s : String) : Option Int :=
  match s.toList.dropWhile Char.isWhitespace with
  | '-' :: rest => (parseLeadingDigits rest).map (fun n => -(n : Int))
  | '+' :: rest => (parseLeadingDigits rest).map (fun n => (n : Int))
  | cs => (parseLeadingDigits cs).map (fun n => (n : Int))

/-- Modelled from the spec: the bounded retry core of the util `poll`
helper, counting down the remaining attempts; a failed attempt moves to the
next attempt index, and exhausted attempts end in the timeout failure. -/
def pollFrom (f : Nat → Option α) : Nat → Nat → Except BinTimeoutError α
  | _, 0 => Except.error BinTimeoutError.mk
  | i, fuel + 1 =>
    match f i with
    | some a => Except.ok a
    | none => pollFrom f (i + 1) fuel

/-- Modelled from the spec: the util `poll` helper at interval
`POLL_INTERVAL_MS` and overall timeout `POLL_TIMEOUT_MS`. -/
def poll (f : Nat → Option α) : Except BinTimeoutError α :=
  pollFrom f 0 MAX_POLL_ATTEMPTS

/-- Embeds `PocketIcServer` (pocket-ic-server.ts lines 47-55): the constructor
derives the base URL from the port number. -/
structure PocketIcServer where
  url : String
deriving DecidableEq, Repr

/-- The private `PocketIcServer` constructor (pocket-ic-server.ts lines
50-55): stores `http://127.0.0.1:` followed by the port number. -/
def PocketIcServer.ofPort (portNumber : Int) : PocketIcServer :=
  { url := "http://127.0.0.1:" ++ toString portNumber }

/-- Embeds `PocketIcServer.getUrl` (pocket-ic-server.ts lines 114-116). -/
def PocketIcServer.getUrl (s : PocketIcServer) : String := s.url

/-- The polling phase of `PocketIcServer.start` (pocket-ic-server.ts lines
95-106) as a function of the readiness-file content observed at each
attempt: each attempt reads the port file and parses it with `parseInt`; a
parse failure (`NaN`) is a failed attempt retried by `poll` until the
timeout; a parsed port yields the ready server. -/
def PocketIcServer.start (readPortFile : Nat → String) :
    Except BinTimeoutError PocketIcServer :=
  poll (fun i => (parseIntJs (readPortFile i)).map PocketIcServer.ofPort)

/-- An event delivered by the child process after a `stop()` call: Node's
`exit` or `error` event. -/
inductive ProcEvent
  | exit
  | err (message : String)
deriving DecidableEq, Repr

/-- Embeds `PocketIcServer.stop` (pocket-ic-server.ts lines 123-135) as a function
of the sequence of events the child process delivers after the call: `stop`
registers a resolve handler on `exit` and a reject handler on `error`, then
sends the kill signal, so the returned promise settles with the first event
delivered afterwards — `some (Except.ok ())` on exit first, `some
(Except.error e)` on error first — and stays pending (`none`) when no
further event is ever delivered.  Node emits `exit` at most once, so a
process that already exited delivers the empty trace. -/
def stopOutcome (events : List ProcEvent) : Option (Except String Unit) :=
  match events with
  | [] => none
  | ProcEvent.exit :: _ => some (Except.ok ())
  | ProcEvent.err e :: _ => some (Except.error e)

/-- The total number of subnets, across every role, carried by an encoded
create-instance request. -/
def totalSubnets (o : EncodedCreateInstanceRequest) : Nat :=
  o.subnet_config_set.nns.toList.length
  + o.subnet_config_set.sns.toList.length
  + o.subnet_config_set.ii.toList.length
  + o.subnet_config_set.fiduciary.toList.length
  + o.subnet_config_set.bitcoin.toList.length
  + o.subnet_config_set.system.length
  + o.subnet_config_set.application.length
  + o.subnet_config_set.verified_application.length

/-! ## Helper lemmas -/

/-- If every attempt fails, polling ends in the timeout failure whatever
the fuel and the starting attempt index. -/
lemma pollFrom_none {α} (f : Nat → Option α) (h : ∀ j, f j = none) :
    ∀ (fuel i : Nat), pollFrom f i fuel = Except.error BinTimeoutError.mk := by
  intro fuel
  induction fuel with
  | zero => intro i; rfl
  | succ n ih =>
    intro i
    rw [pollFrom, h i]
    exact ih (i + 1)

/-- If the first `k` attempts starting at `i` fail and attempt `i + k`
succeeds within the fuel, polling returns that success. -/
lemma pollFrom_ok {α} (f : Nat → Option α) :
    ∀ (fuel k i : Nat) (a : α), k < fuel → (∀ j, j < k → f (i + j) = none) →
      f (i + k) = some a → pollFrom f i fuel = Except.ok a := by
  intro fuel
  induction fuel with
  | zero => intro k i a hk; exact absurd hk (Nat.not_lt_zero k)
  | succ n ih =>
    intro k i a hk hnone hsome
    cases k with
    | zero =>
      rw [pollFrom]
      rw [Nat.add_zero] at hsome
      rw [hsome]
    | succ m =>
      have h0 : f i = none := by
        have := hnone 0 (Nat.succ_pos m)
        rwa [Nat.add_zero] at this
      rw [pollFrom, h0]
      refine ih m (i + 1) a (by omega) ?_ ?_
      · intro j hj
        have := hnone (j + 1) (by omega)
        rwa [show i + (j + 1) = i + 1 + j by omega] at this
      · rwa [show i + (m + 1) = i + 1 + m by omega] at hsome

/-- An option whose `toList` is empty is `none`. -/
lemma option_isNone_of_toList_length {α} (x : Option α)
    (h : x.toList.length = 0) : x.isNone = true := by
  cases x <;> simp at h ⊢

/-- An encoded create-instance request that passes the validation gate
carries at least one subnet across all roles. -/
lemma totalSubnets_pos_of_gate_false
    (n s i f b : Option EncodedSubnetConfig)
    (sys app vapp : List EncodedSubnetConfig) (nf : Bool)
    (hcond : ((n.isNone && s.isNone && i.isNone && f.isNone && b.isNone
        && (sys.length == 0) && (app.length == 0))
      || decide (sys.length < 0) || decide (app.length < 0)) = false) :
    1 ≤ totalSubnets ⟨⟨n, s, i, f, b, sys, app, vapp⟩, nf⟩ := by
  by_contra htot
  simp only [not_le, Nat.lt_one_iff] at htot
  unfold totalSubnets at htot
  dsimp only at htot
  have h1 : n.toList.length = 0 := by omega
  have h2 : s.toList.length = 0 := by omega
  have h3 : i.toList.length = 0 := by omega
  have h4 : f.toList.length = 0 := by omega
  have h5 : b.toList.length = 0 := by omega
  have h6 : sys.length = 0 := by omega
  have h7 : app.length = 0 := by omega
  rw [option_isNone_of_toList_length _ h1, option_isNone_of_toList_length _ h2,
    option_isNone_of_toList_length _ h3, option_isNone_of_toList_length _ h4,
    option_isNone_of_toList_length _ h5, h6, h7] at hcond
  simp at hcond

/-! ## Claim theorems -/

/-- C1: a create-instance request that specifies zero subnets across every
role — no nns, sns, ii, fiduciary or bitcoin subnet, and empty system,
application and verified-application lists — makes
`encodeCreateInstanceRequest` raise the topology-validation failure before
any payload is produced. -/
theorem createInstance_empty_topology_rejected
    (r : CreateInstanceRequest)
    (hnns : r.nns = none) (hsns : r.sns = none) (hii : r.ii = none)
    (hfid : r.fiduciary = none) (hbtc : r.bitcoin = none)
    (hsys : r.system = none ∨ r.system = some [])
    (happ : r.application = some [])
    (hvapp : r.verifiedApplication = none ∨ r.verifiedApplication = some []) :
    encodeCreateInstanceRequest (some r) =
      Except.error TopologyValidationError.mk := by
  rcases hsys with h1 | h1 <;> rcases hvapp with h2 | h2 <;>
    simp [encodeCreateInstanceRequest, encodeManySubnetConfigs,
      encodeSubnetConfig, hnns, hsns, hii, hfid, hbtc, h1, happ, h2]

/-- Witness for C1: the fully empty request is rejected. -/
theorem createInstance_empty_topology_rejected_witness :
    encodeCreateInstanceRequest
      (some ⟨none, none, none, none, none, some [], some [], some [],
             none, none⟩) = Except.error TopologyValidationError.mk :=
  createInstance_empty_topology_rejected
    ⟨none, none, none, none, none, some [], some [], some [], none, none⟩
    rfl rfl rfl rfl rfl (Or.inr rfl) rfl (Or.inr rfl)

/-- C2: `encodeEffectivePrincipal` and `decodeEffectivePrincipal` are
mutual inverses: absence encodes to the `'None'` sentinel and the sentinel
decodes back to absence (not an empty object); subnet routing encodes to
the `SubnetId` tag and canister routing to the `CanisterId` tag; decode
after encode is the identity on effective principals and encode after
decode is the identity on the three wire shapes. -/
theorem effectivePrincipal_codec_inverse :
    encodeEffectivePrincipal none = EncodedEffectivePrincipal.None
    ∧ decodeEffectivePrincipal EncodedEffectivePrincipal.None = none
    ∧ (∀ p, encodeEffectivePrincipal (some (EffectivePrincipal.subnetId p))
        = EncodedEffectivePrincipal.SubnetId (base64EncodePrincipal p))
    ∧ (∀ p, encodeEffectivePrincipal (some (EffectivePrincipal.canisterId p))
        = EncodedEffectivePrincipal.CanisterId (base64EncodePrincipal p))
    ∧ (∀ p, decodeEffectivePrincipal (encodeEffectivePrincipal p) = p)
    ∧ (∀ w, encodeEffectivePrincipal (decodeEffectivePrincipal w) = w) := by
  refine ⟨rfl, rfl, fun p => rfl, fun p => rfl, fun p => ?_, fun w => ?_⟩
  · rcases p with _ | p
    · rfl
    · rcases p with p | p <;> rfl
  · rcases w with s | s | _ <;> rfl

/-- C3: `decodeCanisterCallResponse` classifies every response of the
closed three-shape union: an `Err` payload raises an error carrying the
description verbatim, an `Ok.Reject` payload raises an error carrying the
reject message verbatim, and an `Ok.Reply` payload returns the
base64-decoded bytes; no other shape exists. -/
theorem canisterCallResponse_classified :
    (∀ code description,
      decodeCanisterCallResponse (EncodedCanisterCallResponse.Err code description)
        = Except.error description)
    ∧ (∀ m, decodeCanisterCallResponse (EncodedCanisterCallResponse.OkReject m)
        = Except.error m)
    ∧ (∀ s, decodeCanisterCallResponse (EncodedCanisterCallResponse.OkReply s)
        = Except.ok ⟨base64Decode s⟩)
    ∧ (∀ b, decodeCanisterCallResponse
        (EncodedCanisterCallResponse.OkReply (base64Encode b))
        = Except.ok ⟨b⟩) :=
  ⟨fun _ _ => rfl, fun _ => rfl, fun _ => rfl, fun _ => rfl⟩

/-- C4: defaulting policy — an absent create-instance request encodes to
exactly one Application subnet `⟨Enabled, Production, New⟩`; an absent
deterministic-time-slicing flag encodes as `Enabled` and an absent
benchmarking-instruction-limits flag as `Production`, for every subnet
config. -/
theorem createInstance_defaults :
    encodeCreateInstanceRequest none =
      Except.ok ⟨⟨none, none, none, none, none, [],
        [⟨DtsFlag.Enabled, InstructionConfig.Production, StateConfig.New⟩], []⟩,
        false⟩
    ∧ encodeDtsFlag none = DtsFlag.Enabled
    ∧ encodeInstructionConfig none = InstructionConfig.Production
    ∧ (∀ (b : Option Bool) (st : SubnetStateConfig),
        (encodeSubnetConfig (some ⟨none, b, st⟩)).map EncodedSubnetConfig.dts_flag
          = some DtsFlag.Enabled)
    ∧ (∀ (b : Option Bool) (st : SubnetStateConfig),
        (encodeSubnetConfig (some ⟨b, none, st⟩)).map
            EncodedSubnetConfig.instruction_config
          = some InstructionConfig.Production) := by
  refine ⟨rfl, rfl, rfl, fun b st => ?_, fun b st => ?_⟩ <;> cases st <;> rfl

/-- C5: time unit conversion is exact multiplication and division by
1,000,000 applied consistently: `encodeSetTimeRequest` multiplies the
millisecond timestamp by 1,000,000, `decodeGetTimeResponse` divides the
nanosecond timestamp by 1,000,000, and decoding the encoding of any exactly
representable millisecond timestamp returns it unchanged. -/
theorem time_unit_conversion :
    (∀ t : ℚ, encodeSetTimeRequest ⟨t⟩ = ⟨t * 1000000⟩)
    ∧ (∀ n : ℚ, decodeGetTimeResponse ⟨n⟩ = ⟨n / 1000000⟩)
    ∧ (∀ t : ℚ,
        decodeGetTimeResponse ⟨(encodeSetTimeRequest ⟨t⟩).nanos_since_epoch⟩
          = ⟨t⟩) := by
  refine ⟨fun t => rfl, fun n => rfl, fun t => ?_⟩
  simp only [encodeSetTimeRequest, decodeGetTimeResponse, GetTimeResponse.mk.injEq]
  exact mul_div_cancel_right₀ t (by norm_num)

/-- C6: every unknown wire tag is a fatal error, never silently defaulted:
`decodeSubnetKind` errors on any token outside the seven known subnet-kind
tokens, `decodeCanisterHttpMethod` errors on any token other than GET, POST
and HEAD, and `encodeHttpsOutcallResponse` errors on any mock-response type
other than success and reject; in each case the result is an error, never a
defaulted value. -/
theorem unknown_wire_tags_fatal :
    (∀ kind : String, kind ∉ knownSubnetKinds →
      decodeSubnetKind kind = Except.error ("Unknown subnet kind: " ++ kind))
    ∧ (∀ method : String, method ∉ knownHttpMethods →
      decodeCanisterHttpMethod method
        = Except.error ("Unknown canister HTTP method: " ++ method))
    ∧ (∀ res : HttpsOutcallResponseMock,
        res.type ≠ "success" → res.type ≠ "reject" →
        encodeHttpsOutcallResponse res = Except.error "Unknown response type") := by
  refine ⟨fun kind h => ?_, fun method h => ?_, fun res h1 h2 => ?_⟩
  · simp only [knownSubnetKinds, List.mem_cons, List.not_mem_nil, or_false,
      not_or] at h
    obtain ⟨n1, n2, n3, n4, n5, n6, n7⟩ := h
    simp [decodeSubnetKind, n1, n2, n3, n4, n5, n6, n7]
  · simp only [knownHttpMethods, List.mem_cons, List.not_mem_nil, or_false,
      not_or] at h
    obtain ⟨n1, n2, n3⟩ := h
    simp [decodeCanisterHttpMethod, n1, n2, n3]
  · simp [encodeHttpsOutcallResponse, h1, h2]

/-- Witness for C6: concrete unknown tags are rejected. -/
theorem unknown_wire_tags_fatal_witness :
    decodeSubnetKind "Governance" = Except.error "Unknown subnet kind: Governance"
    ∧ decodeCanisterHttpMethod "PUT"
        = Except.error "Unknown canister HTTP method: PUT"
    ∧ encodeHttpsOutcallResponse ⟨"timeout", 0, [], [], ""⟩
        = Except.error "Unknown response type" :=
  ⟨unknown_wire_tags_fatal.1 "Governance" (by decide),
   unknown_wire_tags_fatal.2.1 "PUT" (by decide),
   unknown_wire_tags_fatal.2.2 ⟨"timeout", 0, [], [], ""⟩ (by decide) (by decide)⟩

/-- C7: process supervisor readiness — the poll budget never exceeds the
configured timeout bound; if the readiness file never parses to an integer
port, `start` ends in the timeout failure after the bounded number of
attempts (never retrying infinitely); if some attempt within the bound is
the first to parse to an integer port, `start` resolves to a ready server
whose `getUrl` embeds exactly that integer as the port. -/
theorem server_start_poll (readPortFile : Nat → String) :
    POLL_INTERVAL_MS * MAX_POLL_ATTEMPTS ≤ POLL_TIMEOUT_MS
    ∧ ((∀ i, parseIntJs (readPortFile i) = none) →
        PocketIcServer.start readPortFile = Except.error BinTimeoutError.mk)
    ∧ (∀ (i : Nat) (port : Int), i < MAX_POLL_ATTEMPTS →
        (∀ j, j < i → parseIntJs (readPortFile j) = none) →
        parseIntJs (readPortFile i) = some port →
        PocketIcServer.start readPortFile
            = Except.ok (PocketIcServer.ofPort port)
          ∧ (PocketIcServer.ofPort port).getUrl
            = "http://127.0.0.1:" ++ toString port) := by
  refine ⟨by decide, fun h => ?_, fun i port hi hnone hsome => ⟨?_, rfl⟩⟩
  · unfold PocketIcServer.start poll
    exact pollFrom_none _ (fun j => by rw [h j]; rfl) MAX_POLL_ATTEMPTS 0
  · unfold PocketIcServer.start poll
    refine pollFrom_ok _ MAX_POLL_ATTEMPTS i 0 _ hi (fun j hj => ?_) ?_
    · rw [Nat.zero_add, hnone j hj]; rfl
    · rw [Nat.zero_add, hsome]; rfl

/-- Witness for C7: a file that never parses ends in timeout; a file that
reads `8080` immediately yields a ready server at port 8080. -/
theorem server_start_poll_witness :
    PocketIcServer.start (fun _ => "") = Except.error BinTimeoutError.mk
    ∧ PocketIcServer.start (fun _ => "8080")
        = Except.ok (PocketIcServer.ofPort 8080)
    ∧ (PocketIcServer.ofPort 8080).getUrl = "http://127.0.0.1:8080" :=
  ⟨(server_start_poll (fun _ => "")).2.1 (fun _ => rfl),
   ((server_start_poll (fun _ => "8080")).2.2 0 8080 (by decide)
      (fun j hj => absurd hj (Nat.not_lt_zero j)) rfl).1,
   ((server_start_poll (fun _ => "8080")).2.2 0 8080 (by decide)
      (fun j hj => absurd hj (Nat.not_lt_zero j)) rfl).2⟩

/-- C8 (amended): `stop()` settles with the first event the child process
delivers after the call — success on `exit`, rejection carrying the error
on `error` — and it settles successfully only when an `exit` event was
delivered; invoked after the process has already exited (empty remaining
event trace, since `exit` is emitted only once), it never settles, rather
than being a no-op success. -/
theorem stop_settles_on_first_event :
    (∀ rest, stopOutcome (ProcEvent.exit :: rest) = some (Except.ok ()))
    ∧ (∀ e rest, stopOutcome (ProcEvent.err e :: rest) = some (Except.error e))
    ∧ (∀ events, stopOutcome events = some (Except.ok ()) →
        ∃ rest, events = ProcEvent.exit :: rest)
    ∧ stopOutcome [] = none := by
  refine ⟨fun rest => rfl, fun e rest => rfl, fun events h => ?_, rfl⟩
  match events with
  | [] => simp [stopOutcome] at h
  | ProcEvent.exit :: rest => exact ⟨rest, rfl⟩
  | ProcEvent.err e :: rest => simp [stopOutcome] at h

/-- Witness for C8 (amended): the success case of the characterization at a
concrete trace. -/
theorem stop_settles_on_first_event_witness :
    ∃ rest, [ProcEvent.exit] = ProcEvent.exit :: rest :=
  stop_settles_on_first_event.2.2.1 [ProcEvent.exit] rfl

/-- Counterexample to C8 as stated: a `stop()` call made after the process
has already exited (so no further `exit` or `error` event is delivered)
does not succeed as a no-op — it never settles at all. -/
theorem stop_after_exit_never_settles :
    stopOutcome [] ≠ some (Except.ok ()) := by
  simp [stopOutcome]

/-- C9: whenever the `application` field is absent — whether the whole
request is absent or the request is present with `application` undefined —
`encodeCreateInstanceRequest` substitutes a single default New Application
subnet into the encoded application list; consequently every encoding the
function returns carries at least one subnet across all roles. -/
theorem default_application_substitution :
    (∀ r : CreateInstanceRequest, r.application = none →
      ∃ o, encodeCreateInstanceRequest (some r) = Except.ok o
        ∧ o.subnet_config_set.application =
          [⟨DtsFlag.Enabled, InstructionConfig.Production, StateConfig.New⟩])
    ∧ (∀ (req : Option CreateInstanceRequest) (o : EncodedCreateInstanceRequest),
        encodeCreateInstanceRequest req = Except.ok o → 1 ≤ totalSubnets o) := by
  constructor
  · intro r h
    have happ : encodeManySubnetConfigs
        (some (r.application.getD [defaultApplicationSubnet]))
        = [⟨DtsFlag.Enabled, InstructionConfig.Production, StateConfig.New⟩] := by
      rw [h]; rfl
    refine ⟨⟨⟨encodeSubnetConfig r.nns, encodeSubnetConfig r.sns,
      encodeSubnetConfig r.ii, encodeSubnetConfig r.fiduciary,
      encodeSubnetConfig r.bitcoin, encodeManySubnetConfigs r.system,
      [⟨DtsFlag.Enabled, InstructionConfig.Production, StateConfig.New⟩],
      encodeManySubnetConfigs r.verifiedApplication⟩,
      r.nonmainnetFeatures.getD false⟩, ?_, rfl⟩
    simp only [encodeCreateInstanceRequest, Option.getD_some, happ]
    simp
  · intro req o h
    simp only [encodeCreateInstanceRequest] at h
    split at h
    · exact absurd h (by simp)
    · next hcond =>
      rw [Except.ok.injEq] at h
      subst h
      rw [Bool.not_eq_true] at hcond
      exact totalSubnets_pos_of_gate_false _ _ _ _ _ _ _ _ _ hcond

/-- Witness for C9: a present request with `application` undefined gets the
default Application subnet, and the absent request's encoding carries at
least one subnet. -/
theorem default_application_substitution_witness :
    (∃ o, encodeCreateInstanceRequest
        (some ⟨none, none, none, none, none, none, none, none, none, none⟩)
        = Except.ok o
      ∧ o.subnet_config_set.application =
        [⟨DtsFlag.Enabled, InstructionConfig.Production, StateConfig.New⟩])
    ∧ 1 ≤ totalSubnets
        ⟨⟨none, none, none, none, none, [],
          [⟨DtsFlag.Enabled, InstructionConfig.Production, StateConfig.New⟩], []⟩,
         false⟩ :=
  ⟨default_application_substitution.1
      ⟨none, none, none, none, none, none, none, none, none, none⟩ rfl,
   default_application_substitution.2 none
      ⟨⟨none, none, none, none, none, [],
        [⟨DtsFlag.Enabled, InstructionConfig.Production, StateConfig.New⟩], []⟩,
       false⟩ rfl⟩

/-- C10: `decodeGetSubnetIdResponse` is total over its three input shapes
and never raises: the nil response and the keyless object both decode to an
absent subnet id, and a response carrying `subnet_id` decodes to the
base64-decoded principal of that string. -/
theorem subnetId_decode_total :
    decodeGetSubnetIdResponse EncodedGetSubnetIdResponse.nil = ⟨none⟩
    ∧ decodeGetSubnetIdResponse EncodedGetSubnetIdResponse.emptyObject = ⟨none⟩
    ∧ (∀ s, decodeGetSubnetIdResponse (EncodedGetSubnetIdResponse.withSubnetId s)
        = ⟨some (base64DecodePrincipal s)⟩) :=
  ⟨rfl, rfl, fun _ => rfl⟩
